import Mathlib

/-!
Verification development for the BudgetOps-AI email-to-transaction pipeline.

The Python source is shallowly embedded: dictionaries become structures with
`Option`-valued fields where a key may be absent or bound to `None`, Python
floats become `ℚ`, and every call to an external collaborator (the Gemini
LLM via LangChain, the base64 codec of the standard library) is a function
parameter ("oracle") supplied to the embedded definition.  An oracle of type
`α → Option β` models one invoke-and-parse round trip: `some` is a response
that passed the Pydantic schema parse, `none` is any internal failure
(transport error, exception, schema-invalid output) — in the Python source
all of these are caught by the surrounding `try/except` block.
-/

/-! ## src/lang/chains/parser_chain.py -/

/-- Embeds `TransactionData` (parser_chain.py lines 19-28): the Pydantic
model the LLM response is parsed against.  Pydantic validates types only:
`amount` is any float (embedded as `ℚ`), `transaction_type` is any string —
neither the sign of `amount` nor membership of `transaction_type` in
{credit, debit} is checked by the schema. -/
structure TransactionData where
  amount : ℚ
  transaction_type : String
  card : Option String := none
  -- embeds the dictionary key named "to" (a reserved word in Lean)
  to_field : Option String := none
  transaction_reference_number : Option String := none
  date : String
  timestamp : String
  description : Option String := none
  deriving DecidableEq, Repr

/-- An email dictionary as produced by `GmailService._get_message_details`
(gmail_service.py lines 175-185), restricted to the keys
`parse_email_batch` reads: `id`, `subject`, `date`, `snippet`, `body`. -/
structure Email where
  id : String
  subject : String
  date : String
  snippet : String
  body : String
  deriving DecidableEq, Repr

/-- Embeds `EmailParser.parse_email` (parser_chain.py lines 87-133).
`oracle text ts` stands for formatting the prompt from `text` and `ts`,
invoking the LLM and parsing the response with the Pydantic output parser;
`none` is the `except Exception` path, which makes the function return
`None` instead of raising.  `now` models `datetime.now(tz)` formatted as in
line 107; Python's `if not current_timestamp` also treats the empty string
as absent. -/
def parse_email (oracle : String → String → Option TransactionData)
    (now : String) (email_text : String) (current_timestamp : Option String) :
    Option TransactionData :=
  let ts := match current_timestamp with
    | some s => if s = "" then now else s
    | none => now
  oracle email_text ts

/-- A parsed transaction with the source-email metadata attached, as built
by `parse_email_batch` (parser_chain.py lines 159-164). -/
structure ParsedTransaction where
  data : TransactionData
  email_id : String
  email_subject : String
  email_date : String
  deriving DecidableEq, Repr

/-- Embeds `EmailParser.parse_email_batch` (parser_chain.py lines 135-167):
a sequential loop that parses each email (snippet or body), appends the
successes with metadata attached to `results`, and silently skips each
email whose parse returned `None`. -/
def parse_email_batch (oracle : String → String → Option TransactionData)
    (now : String) (use_snippet : Bool) : List Email → List ParsedTransaction
  | [] => []
  | e :: rest =>
    let text := if use_snippet then e.snippet else e.body
    match parse_email oracle now text none with
    | some d =>
        ⟨d, e.id, e.subject, e.date⟩ :: parse_email_batch oracle now use_snippet rest
    | none => parse_email_batch oracle now use_snippet rest

/-! ## src/lang/chains/categorize_chain.py -/

/-- Embeds `CategoryData` (categorize_chain.py lines 16-20): the Pydantic
model for the categorizer's response.  `category` is an arbitrary string —
the schema does not constrain it to the predefined category list. -/
structure CategoryData where
  category : String
  sub_category : Option String := none
  confidence : ℚ := 1
  deriving DecidableEq, Repr

/-- Embeds `TransactionCategorizer.CATEGORIES` (categorize_chain.py lines
27-40): the twelve predefined category labels offered in the prompt. -/
def CATEGORIES : List String :=
  ["Food & Dining", "Groceries", "Transportation", "Shopping",
   "Entertainment", "Bills & Utilities", "Healthcare", "Education",
   "Travel", "Investment", "Transfer", "Others"]

/-- A transaction dictionary as seen by the categorize chain: the fields
read when formatting the prompt and the three fields `categorize_batch`
writes.  `Option` marks a key that may be absent. -/
structure CatTxn where
  amount : Option ℚ := none
  transaction_type : Option String := none
  -- embeds the dictionary key named "to" (a reserved word in Lean)
  to_field : Option String := none
  to_merchant : Option String := none
  description : Option String := none
  category : Option String := none
  sub_category : Option String := none
  category_confidence : Option ℚ := none
  deriving DecidableEq, Repr

/-- Embeds `TransactionCategorizer.categorize_transaction`
(categorize_chain.py lines 87-126).  The whole `try` body — merchant
extraction, prompt formatting, LLM invocation, Pydantic parse — is the
oracle; the `except Exception` handler returns `None`, so the function
never raises. -/
def categorize_transaction (oracle : CatTxn → Option CategoryData)
    (t : CatTxn) : Option CategoryData :=
  oracle t

/-- Embeds `TransactionCategorizer.categorize_batch` (categorize_chain.py
lines 128-158): per transaction, on a successful categorization the parsed
`category`, `sub_category` and `confidence` are attached; when
`categorize_transaction` returned `None` the fallback
`category = "Others"`, `sub_category = None`, `category_confidence = 0.5`
is attached instead.  Every input transaction appears in the output. -/
def categorize_batch (oracle : CatTxn → Option CategoryData) :
    List CatTxn → List CatTxn
  | [] => []
  | t :: rest =>
    let t' := match categorize_transaction oracle t with
      | some cd =>
          { t with category := some cd.category,
                   sub_category := cd.sub_category,
                   category_confidence := some cd.confidence }
      | none =>
          { t with category := some "Others",
                   sub_category := none,
                   category_confidence := some (1/2) }
    t' :: categorize_batch oracle rest

/-! ## src/db/client.py -/

/-- A Python dictionary value as sent to the Supabase row builder: `null`
is Python's `None` (also what `dict.get` yields for an absent key), and
the other constructors carry the concrete numeric or string payloads the
pipeline stores. -/
inductive PyVal where
  | null : PyVal
  | num : ℚ → PyVal
  | str : String → PyVal
  deriving DecidableEq, Repr

/-- The `transaction_data` dictionary as read by
`SupabaseClient.insert_transaction` (client.py lines 56-68): the value
`transaction_data.get(k)` returns for each of the eleven keys the insert
reads; an absent key yields `PyVal.null`, exactly like an explicit `None`
value. -/
structure TxInsertInput where
  amount : PyVal := .null
  transaction_type : PyVal := .null
  card : PyVal := .null
  to_field : PyVal := .null
  transaction_reference_number : PyVal := .null
  description : PyVal := .null
  date : PyVal := .null
  timestamp : PyVal := .null
  email_id : PyVal := .null
  email_subject : PyVal := .null
  email_date : PyVal := .null
  deriving DecidableEq, Repr

/-- Embeds the row preparation of `SupabaseClient.insert_transaction`
(client.py lines 56-71): the fixed eleven-key association list built from
the input dictionary, followed by the strip of `None`-valued entries
(`data = {k: v for k, v in data.items() if v is not None}`, line 71).
The resulting association list is what `.insert(data)` commits. -/
def preparedRow (td : TxInsertInput) : List (String × PyVal) :=
  ([("amount", td.amount),
    ("transaction_type", td.transaction_type),
    ("card", td.card),
    ("to_merchant", td.to_field),
    ("transaction_reference_number", td.transaction_reference_number),
    ("description", td.description),
    ("transaction_date", td.date),
    ("transaction_timestamp", td.timestamp),
    ("email_id", td.email_id),
    ("email_subject", td.email_subject),
    ("email_date", td.email_date)]).filter (fun kv => kv.2 ≠ PyVal.null)

/-- Embeds the commit of `SupabaseClient.insert_transaction` (client.py
line 74) against a ledger store modelled as the list of committed rows:
the prepared, `None`-stripped row is appended. -/
def insert_transaction (store : List (List (String × PyVal)))
    (td : TxInsertInput) : List (List (String × PyVal)) :=
  store ++ [preparedRow td]

/-- A row of the `transactions` table, restricted to the columns the
analytics queries read.  `category` and `to_merchant` may be absent from a
row (they are stripped on insert when `None`). -/
structure DbTxn where
  amount : ℚ
  transaction_type : String
  transaction_date : String
  email_id : String := ""
  category : Option String := none
  to_merchant : Option String := none
  deriving DecidableEq, Repr

/-- Embeds `SupabaseClient.get_transactions` (client.py lines 107-152)
over a store modelled as a list of rows: apply the optional
`transaction_date ≥ start_date`, `transaction_date ≤ end_date` and
`transaction_type =` filters, order by `transaction_date` descending, and
truncate to `limit` rows.  The database's stable sort is modelled by
insertion sort. -/
def get_transactions (store : List DbTxn) (start_date : Option String)
    (end_date : Option String) (ttype : Option String) (limit : Nat) :
    List DbTxn :=
  let filtered := store.filter (fun t =>
    (match start_date with | some s => decide (s ≤ t.transaction_date) | none => true) &&
    (match end_date with | some s => decide (t.transaction_date ≤ s) | none => true) &&
    (match ttype with | some s => t.transaction_type == s | none => true))
  (filtered.insertionSort (fun a b => b.transaction_date ≤ a.transaction_date)).take limit

/-- Embeds `calendar.monthrange(year, month)[1]` as used by
`get_monthly_summary` (client.py line 291): the number of days of the
given calendar month, with the Gregorian leap rule for February. -/
def daysInMonth (year month : Nat) : Nat :=
  if month = 2 then
    if year % 4 = 0 ∧ (year % 100 ≠ 0 ∨ year % 400 = 0) then 29 else 28
  else if month = 4 ∨ month = 6 ∨ month = 9 ∨ month = 11 then 30
  else 31

/-- Renders a month number with two digits, embedding the Python format
`f"{month:02d}"` (client.py lines 287 and 292) for the values 0-99 the
pipeline passes. -/
def monthStr (m : Nat) : String :=
  if m < 10 then "0" ++ toString m else toString m

/-- The summary dictionary built by `SupabaseClient.get_monthly_summary`
(client.py lines 310-318). -/
structure MonthlySummary where
  year : Nat
  month : Nat
  total_spent : ℚ
  total_earned : ℚ
  net : ℚ
  transaction_count : Nat
  average_daily_spend : ℚ
  deriving DecidableEq, Repr

/-- Embeds `SupabaseClient.get_monthly_summary` (client.py lines 274-325):
builds the month's date range (last day from `calendar.monthrange`),
queries up to 1000 transactions of the month, sums debit and credit
amounts, and computes `average_daily_spend = total_debit / last_day if
last_day else 0`.  A month outside 1..12 makes `calendar.monthrange`
raise, which the `except Exception` handler turns into the empty
dictionary, embedded as `none`. -/
def get_monthly_summary (store : List DbTxn) (year month : Nat) :
    Option MonthlySummary :=
  if 1 ≤ month ∧ month ≤ 12 then
    let start_date := toString year ++ "-" ++ monthStr month ++ "-01"
    let last_day := daysInMonth year month
    let end_date := toString year ++ "-" ++ monthStr month ++ "-" ++ toString last_day
    let txs := get_transactions store (some start_date) (some end_date) none 1000
    let total_debit :=
      ((txs.filter (fun t => t.transaction_type == "debit")).map (fun t => t.amount)).sum
    let total_credit :=
      ((txs.filter (fun t => t.transaction_type == "credit")).map (fun t => t.amount)).sum
    some { year := year, month := month,
           total_spent := total_debit,
           total_earned := total_credit,
           net := total_credit - total_debit,
           transaction_count := txs.length,
           average_daily_spend :=
             if last_day ≠ 0 then total_debit / (last_day : ℚ) else 0 }
  else none

/-- Embeds `SupabaseClient.get_transaction_by_email_id` (client.py lines
154-176) over the modelled store: the first stored row whose `email_id`
column equals the given id, `none` when there is no such row. -/
def get_transaction_by_email_id (store : List DbTxn) (eid : String) :
    Option DbTxn :=
  store.find? (fun r => r.email_id == eid)

/-! ## src/api/services/gmail_service.py -/

/-- A node of a Gmail message payload as read by
`GmailService._get_message_body` (gmail_service.py lines 194-220).
`bodyData` is `payload['body'].get('data')`: `none` when the body or its
`data` key is absent, `some s` when present (possibly the empty string,
which Python's truthiness test treats like absence at the top level).
An absent `parts` key is modelled as the empty list — the function treats
the two identically. -/
inductive MessagePart where
  | mk (mimeType : String) (bodyData : Option String) (parts : List MessagePart)

def MessagePart.mimeType : MessagePart → String
  | .mk m _ _ => m

def MessagePart.bodyData : MessagePart → Option String
  | .mk _ b _ => b

def MessagePart.parts : MessagePart → List MessagePart
  | .mk _ _ ps => ps

/-- Embeds the `for part in payload['parts']` loop of `_get_message_body`
(gmail_service.py lines 211-218): scan the immediate parts in order and
decode the first one whose `mimeType` is exactly `text/plain` and whose
body has a `data` key (the loop `break`s there); a `text/plain` part
without data does not stop the scan.  The scan never descends into a
part's own sub-parts.  `decode` stands for
`base64.urlsafe_b64decode(data).decode('utf-8')`. -/
def scanParts (decode : String → String) : List MessagePart → String
  | [] => ""
  | p :: rest =>
    if p.mimeType = "text/plain" then
      match p.bodyData with
      | some d => decode d
      | none => scanParts decode rest
    else scanParts decode rest

/-- Embeds `GmailService._get_message_body` (gmail_service.py lines
194-220): if the payload itself carries truthy (non-empty) body data it is
decoded regardless of its mime type; otherwise the immediate parts are
scanned by `scanParts`; if neither yields anything the result is the
initial empty string. -/
def get_message_body (decode : String → String) (payload : MessagePart) :
    String :=
  match payload.bodyData with
  | some d => if d = "" then scanParts decode payload.parts else decode d
  | none => scanParts decode payload.parts

mutual

/-- Modelled from the spec: the claim's reading of body extraction —
"locates the first `text/plain` part in a possibly multi-part, possibly
nested payload" — as a recursive first-match search over the whole payload
tree, returning the transport-encoded data of the first `text/plain` node
carrying data.  This is the spec-side definition a refinement claim
compares `get_message_body` against; it is not code of the repository. -/
def specFirstPlainText : MessagePart → Option String
  | .mk m b ps =>
    if m = "text/plain" ∧ b.isSome then b else specFirstPlainTextList ps

/-- Helper of `specFirstPlainText`: first match over a list of sub-parts. -/
def specFirstPlainTextList : List MessagePart → Option String
  | [] => none
  | p :: rest =>
    match specFirstPlainText p with
    | some d => some d
    | none => specFirstPlainTextList rest

end

/-! ## src/lang/chains/insight_chain.py -/

/-- Renders a number inside a message string; Python formats the value
with `str`/`format`, here rendered by `toString` on `ℚ`. -/
def fmtQ (q : ℚ) : String := toString q

/-- The daily summary dictionary built by `get_daily_summary` as read by
`InsightGenerator.generate_daily_insight` (insight_chain.py lines
128-136); every field is read with `summary.get(key, default)`, so each is
`Option`-valued here. -/
structure DailySummaryDict where
  date : Option String := none
  total_spent : Option ℚ := none
  total_earned : Option ℚ := none
  net : Option ℚ := none
  transaction_count : Option Nat := none
  deriving DecidableEq, Repr

/-- Embeds the per-category accumulation of `generate_daily_insight`
(insight_chain.py lines 106-110) one debit transaction at a time: the
first occurrence of a category appends a pair, later occurrences add into
the existing pair — Python dictionaries preserve insertion order. -/
def addToTotals (totals : List (String × ℚ)) (cat : String) (amt : ℚ) :
    List (String × ℚ) :=
  match totals with
  | [] => [(cat, amt)]
  | (c, a) :: rest =>
    if c = cat then (c, a + amt) :: rest else (c, a) :: addToTotals rest cat amt

/-- Embeds the `category_totals` loop of `generate_daily_insight`
(insight_chain.py lines 106-110): only transactions whose
`transaction_type` is `debit` contribute; the category defaults to
`Others` and the amount to `0` when the key is absent. -/
def categoryTotals (ts : List DbTxn) : List (String × ℚ) :=
  ts.foldl
    (fun acc t =>
      if t.transaction_type = "debit" then
        addToTotals acc (t.category.getD "Others") t.amount
      else acc)
    []

/-- Embeds the `sorted(category_totals.items(), key=lambda x: x[1],
reverse=True)` of `generate_daily_insight` (insight_chain.py line 114):
the category totals ordered by amount, largest first.  Python's stable
built-in sort is modelled by insertion sort on the same key. -/
def sortedCategoryTotals (ts : List DbTxn) : List (String × ℚ) :=
  (categoryTotals ts).insertionSort (fun a b => b.2 ≤ a.2)

/-- Embeds the `category_breakdown` string of `generate_daily_insight`
(insight_chain.py lines 112-115): one `- cat: ₹amount` line per category,
in sorted order. -/
def categoryBreakdownText (ts : List DbTxn) : String :=
  String.intercalate "\x0a"
    ((sortedCategoryTotals ts).map (fun ca => "- " ++ ca.1 ++ ": ₹" ++ fmtQ ca.2))

/-- Embeds the `trans_summary` string of `generate_daily_insight`
(insight_chain.py lines 118-122): the first five transactions, debit ones
only, one line each with the amount and the merchant truncated to 30
characters. -/
def transSummaryText (ts : List DbTxn) : String :=
  String.intercalate "\x0a"
    (((ts.take 5).filter (fun t => t.transaction_type = "debit")).map
      (fun t => "- ₹" ++ fmtQ t.amount ++ " to " ++ (t.to_merchant.getD "Unknown").take 30))

/-- Embeds the formatted daily prompt of `generate_daily_insight`
(insight_chain.py lines 36-57 and 128-136): the daily template with the
summary numbers, the category breakdown and the transaction summary
substituted.  `today` models `date.today().isoformat()`. -/
def dailyPrompt (today : String) (s : DailySummaryDict)
    (transactions : Option (List DbTxn)) : String :=
  let category_breakdown := match transactions with
    | some ts => if ts = [] then "No category data available" else categoryBreakdownText ts
    | none => "No category data available"
  let trans_summary := match transactions with
    | some ts => if ts = [] then "No transactions available" else transSummaryText ts
    | none => "No transactions available"
  "You are a friendly personal finance assistant. Generate a concise daily spending summary.\x0a\x0a" ++
  "Date: " ++ s.date.getD today ++ "\x0a\x0a" ++
  "Spending Summary:\x0a" ++
  "- Total Spent: ₹" ++ fmtQ (s.total_spent.getD 0) ++ "\x0a" ++
  "- Total Earned: ₹" ++ fmtQ (s.total_earned.getD 0) ++ "\x0a" ++
  "- Net: ₹" ++ fmtQ (s.net.getD 0) ++ "\x0a" ++
  "- Number of Transactions: " ++ toString (s.transaction_count.getD 0) ++ "\x0a\x0a" ++
  "Top Spending Categories:\x0a" ++ category_breakdown ++ "\x0a\x0a" ++
  "Transaction Details:\x0a" ++ trans_summary ++ "\x0a\x0a" ++
  "Generate a friendly 2-3 sentence daily insight that:\x0a" ++
  "1. Summarizes today's spending in a conversational tone\x0a" ++
  "2. Highlights the main spending category\x0a" ++
  "3. Gives a quick tip or observation\x0a\x0a" ++
  "Keep it brief, positive, and actionable."

/-- Embeds the fallback string of `generate_daily_insight`
(insight_chain.py line 147): the deterministic sentence built only from
the numeric summary fields in the `except` handler. -/
def dailyFallback (s : DailySummaryDict) : String :=
  "Today you spent ₹" ++ fmtQ (s.total_spent.getD 0) ++ " across " ++
    toString (s.transaction_count.getD 0) ++ " transactions."

/-- Embeds `InsightGenerator.generate_daily_insight` (insight_chain.py
lines 88-147): format the prompt, invoke the LLM once (`llm` returns
`none` on any exception in the `try` body), strip the response; on
failure return the templated fallback sentence. -/
def generate_daily_insight (llm : String → Option String) (today : String)
    (s : DailySummaryDict) (transactions : Option (List DbTxn)) : String :=
  match llm (dailyPrompt today s transactions) with
  | some content => content.trim
  | none => dailyFallback s

/-- The monthly summary dictionary as read by
`InsightGenerator.generate_monthly_insight` (insight_chain.py lines
175-184), every field read with a `get` default. -/
structure MonthlySummaryDict where
  year : Option Nat := none
  month : Option Nat := none
  total_spent : Option ℚ := none
  total_earned : Option ℚ := none
  net : Option ℚ := none
  average_daily_spend : Option ℚ := none
  transaction_count : Option Nat := none
  deriving DecidableEq, Repr

/-- Embeds the formatted monthly prompt of `generate_monthly_insight`
(insight_chain.py lines 64-86 and 165-184).  `todayMonth`/`todayYear`
model the `date.today()` defaults. -/
def monthlyPrompt (todayMonth todayYear : Nat) (s : MonthlySummaryDict)
    (category_breakdown : Option (List (String × ℚ))) : String :=
  let cat_text := match category_breakdown with
    | some cb =>
        if cb = [] then "No category data available"
        else String.intercalate "\x0a"
          ((cb.insertionSort (fun a b => b.2 ≤ a.2)).map
            (fun ca => "- " ++ ca.1 ++ ": ₹" ++ fmtQ ca.2))
    | none => "No category data available"
  "You are a personal finance advisor. Generate a monthly spending analysis.\x0a\x0a" ++
  "Month: " ++ toString (s.month.getD todayMonth) ++ " " ++ toString (s.year.getD todayYear) ++ "\x0a\x0a" ++
  "Monthly Summary:\x0a" ++
  "- Total Spent: ₹" ++ fmtQ (s.total_spent.getD 0) ++ "\x0a" ++
  "- Total Earned: ₹" ++ fmtQ (s.total_earned.getD 0) ++ "\x0a" ++
  "- Net: ₹" ++ fmtQ (s.net.getD 0) ++ "\x0a" ++
  "- Average Daily Spend: ₹" ++ fmtQ (s.average_daily_spend.getD 0) ++ "\x0a" ++
  "- Number of Transactions: " ++ toString (s.transaction_count.getD 0) ++ "\x0a\x0a" ++
  "Category Breakdown:\x0a" ++ cat_text ++ "\x0a\x0a" ++
  "Generate a comprehensive 4-5 sentence monthly insight that:\x0a" ++
  "1. Summarizes overall spending patterns\x0a" ++
  "2. Highlights top spending categories\x0a" ++
  "3. Identifies any concerning trends\x0a" ++
  "4. Provides actionable recommendations for next month\x0a\x0a" ++
  "Be specific with numbers and constructive with feedback."

/-- Embeds the fallback string of `generate_monthly_insight`
(insight_chain.py line 195). -/
def monthlyFallback (s : MonthlySummaryDict) : String :=
  "This month you spent ₹" ++ fmtQ (s.total_spent.getD 0) ++ "."

/-- Embeds `InsightGenerator.generate_monthly_insight` (insight_chain.py
lines 149-195). -/
def generate_monthly_insight (llm : String → Option String)
    (todayMonth todayYear : Nat) (s : MonthlySummaryDict)
    (category_breakdown : Option (List (String × ℚ))) : String :=
  match llm (monthlyPrompt todayMonth todayYear s category_breakdown) with
  | some content => content.trim
  | none => monthlyFallback s

/-! ## The Dedup & Commit Coordinator (spec section 4.4) -/

/-- The aggregate counters returned by the process pipeline
(`{inserted, skipped, failed}`). -/
structure BatchCounts where
  inserted : Nat
  skipped : Nat
  failed : Nat
  deriving DecidableEq, Repr

/-- Modelled from the spec: the record committed per message by the
Dedup & Commit Coordinator (spec section 4.4 steps 4-5) — the extracted
transaction with the source-email metadata and the category assignment
attached, the latter replaced by the `Others`/`None`/`0.5` fallback when
classification failed (spec section 4.3).  Only the columns the dedup
query reads are carried beyond the category fields. -/
def mkRecord (classify : TransactionData → Option CategoryData)
    (td : TransactionData) (e : Email) : DbTxn :=
  { amount := td.amount,
    transaction_type := td.transaction_type,
    transaction_date := td.date,
    email_id := e.id,
    category := some (match classify td with
      | some cd => cd.category
      | none => "Others"),
    to_merchant := td.to_field }

/-- Modelled from the spec: the `process` loop of the Dedup & Commit
Coordinator (spec section 4.4) — the `/transactions/process-emails` route
itself is not under `src/`, so the loop is taken from the spec, over the
store operations embedded from `src/db/client.py`.  Per message, in input
order: normalize to text (the snippet), extract (`ex`; `none` is an
extraction failure, counted `failed`); query the store by
`sourceMessageId` with `get_transaction_by_email_id` (a hit is counted
`skipped`); otherwise classify, attach, and commit the record to the
store (counted `inserted`).  The best-effort mark-read signal of step 6
has no effect on the store or the counters and is omitted.  Returns the
final store and the counters. -/
def process (ex : String → Option TransactionData)
    (classify : TransactionData → Option CategoryData) :
    List DbTxn → List Email → List DbTxn × BatchCounts
  | store, [] => (store, ⟨0, 0, 0⟩)
  | store, e :: rest =>
    match ex e.snippet with
    | none =>
        let r := process ex classify store rest
        (r.1, ⟨r.2.inserted, r.2.skipped, r.2.failed + 1⟩)
    | some td =>
        match get_transaction_by_email_id store e.id with
        | some _ =>
            let r := process ex classify store rest
            (r.1, ⟨r.2.inserted, r.2.skipped + 1, r.2.failed⟩)
        | none =>
            let r := process ex classify (store ++ [mkRecord classify td e]) rest
            (r.1, ⟨r.2.inserted + 1, r.2.skipped, r.2.failed⟩)

/-! ## Theorems -/

/-- Claim C10: the single-record insert strips every key whose value is
`None` before committing, so the committed row never contains a
null-valued field — optional fields absent from the extracted record are
omitted from the stored row rather than stored as null. -/
theorem preparedRow_never_null (td : TxInsertInput) :
    ∀ kv ∈ preparedRow td, kv.2 ≠ PyVal.null := by
  intro kv hkv
  have h := List.of_mem_filter hkv
  simpa using h

/-- Witness for `preparedRow_never_null` at a concrete record whose
optional fields are absent. -/
theorem preparedRow_never_null_witness :
    (("amount", PyVal.num 30) ∈
      preparedRow { amount := PyVal.num 30, transaction_type := PyVal.str "debit" }) ∧
    ("amount", PyVal.num 30).2 ≠ PyVal.null :=
  ⟨by decide,
   preparedRow_never_null
     { amount := PyVal.num 30, transaction_type := PyVal.str "debit" }
     ("amount", PyVal.num 30) (by decide)⟩

/-- Claim C1: the category classification step attaches a category
assignment to every transaction of the batch, and whenever the LLM-backed
categorization of a transaction fails internally the assignment attached
is exactly `category = "Others"`, `sub_category = None`,
`confidence = 0.5`. -/
theorem categorize_batch_always_fallback (oracle : CatTxn → Option CategoryData)
    (txs : List CatTxn) :
    (categorize_batch oracle txs).length = txs.length ∧
    ∀ (i : Nat) (t : CatTxn), txs[i]? = some t → oracle t = none →
      ∃ u, (categorize_batch oracle txs)[i]? = some u ∧
        u.category = some "Others" ∧ u.sub_category = none ∧
        u.category_confidence = some (1/2) := by
  induction txs with
  | nil =>
    refine ⟨rfl, ?_⟩
    intro i t ht
    simp at ht
  | cons t rest ih =>
    refine ⟨by simpa [categorize_batch] using ih.1, ?_⟩
    intro i t' ht hf
    cases i with
    | zero =>
      simp at ht
      subst ht
      simp [categorize_batch, categorize_transaction, hf]
    | succ n =>
      have := ih.2 n t' (by simpa using ht) hf
      simpa [categorize_batch] using this

/-- Witness for `categorize_batch_always_fallback`: a one-element batch
whose categorization fails receives exactly the fallback assignment. -/
theorem categorize_batch_always_fallback_witness :
    ∃ u, (categorize_batch (fun _ => none) [({} : CatTxn)])[0]? = some u ∧
      u.category = some "Others" ∧ u.sub_category = none ∧
      u.category_confidence = some (1/2) :=
  (categorize_batch_always_fallback (fun _ => none) [{}]).2 0 {} rfl rfl

/-- A categorizer response whose parsed category string is outside the
twelve predefined labels: the Pydantic schema accepts it, since
`CategoryData.category` is an unconstrained string. -/
def offListOracle : CatTxn → Option CategoryData :=
  fun _ => some { category := "Cryptocurrency", sub_category := none, confidence := 9/10 }

/-- Counterexample to claim C6: a model output string outside the closed
twelve-label set is NOT treated as a validation failure — the
out-of-set label is attached to the transaction verbatim instead of being
replaced by the `Others` fallback. -/
theorem categorize_category_offlist_cex :
    (categorize_batch offListOracle [({} : CatTxn)]).map (fun t => t.category) =
      [some "Cryptocurrency"] ∧
    "Cryptocurrency" ∉ CATEGORIES := by
  constructor
  · rfl
  · decide

/-- Claim C6 (amended): the twelve labels are offered in the prompt but
membership is not validated — the attached category is exactly the
model's parsed category string when categorization succeeds and `Others`
otherwise; consequently the attached label lies in the twelve-label set
whenever the model's parsed category does (or categorization failed). -/
theorem categorize_category_passthrough (oracle : CatTxn → Option CategoryData)
    (txs : List CatTxn) (i : Nat) (t : CatTxn) (ht : txs[i]? = some t) :
    ∃ u, (categorize_batch oracle txs)[i]? = some u ∧
      u.category = some (match oracle t with
        | some cd => cd.category
        | none => "Others") ∧
      ((∀ cd, oracle t = some cd → cd.category ∈ CATEGORIES) →
        ∃ c, u.category = some c ∧ c ∈ CATEGORIES) := by
  induction txs generalizing i with
  | nil => simp at ht
  | cons t0 rest ih =>
    cases i with
    | zero =>
      simp at ht
      subst ht
      cases ho : oracle t0 with
      | some cd =>
        have hu : (categorize_batch oracle (t0 :: rest))[0]? = some { t0 with category := some cd.category, sub_category := cd.sub_category, category_confidence := some cd.confidence } := by
          simp [categorize_batch, categorize_transaction, ho]
        refine ⟨_, hu, by simp [ho], ?_⟩
        intro hmem
        exact ⟨cd.category, by simp [ho], hmem cd rfl⟩
      | none =>
        have hu : (categorize_batch oracle (t0 :: rest))[0]? = some { t0 with category := some "Others", sub_category := none, category_confidence := some (1/2) } := by
          simp [categorize_batch, categorize_transaction, ho]
        refine ⟨_, hu, by simp [ho], ?_⟩
        intro _
        exact ⟨"Others", by simp [ho], by decide⟩
    | succ n =>
      have := ih n (by simpa using ht)
      simpa [categorize_batch] using this

/-- Witness for `categorize_category_passthrough`: a concrete in-set
response is attached verbatim and stays inside the twelve labels. -/
theorem categorize_category_passthrough_witness :
    ∃ u, (categorize_batch (fun _ => some { category := "Travel" }) [({} : CatTxn)])[0]? = some u ∧
      u.category = some (match (fun (_ : CatTxn) => some { category := "Travel" : CategoryData }) ({} : CatTxn) with
        | some cd => cd.category
        | none => "Others") ∧
      ((∀ cd, (fun (_ : CatTxn) => some { category := "Travel" : CategoryData }) ({} : CatTxn) = some cd →
          cd.category ∈ CATEGORIES) →
        ∃ c, u.category = some c ∧ c ∈ CATEGORIES) :=
  categorize_category_passthrough (fun _ => some { category := "Travel" }) [{}] 0 {} rfl

/-- A parser response that passes the Pydantic type check while violating
both extraction constraints: `amount` is a negative float and
`transaction_type` is neither `credit` nor `debit`.  The schema
(`TransactionData`) accepts it, since it validates types only. -/
def badParseOracle : String → String → Option TransactionData :=
  fun _ _ => some { amount := -5, transaction_type := "refund",
                    date := "2025-10-30", timestamp := "2025-10-30 12:00:00" }

/-- Counterexample to claim C3: the extraction step can return a record
with `amount < 0` and `transaction_type` outside {credit, debit} — the
two constraints are stated in the prompt but not validated, so a
type-correct model response violating them is returned, not rejected. -/
theorem parse_email_unvalidated_cex :
    ∃ r, parse_email badParseOracle "2025-10-30 12:00:00" "some alert text" none = some r ∧
      r.amount < 0 ∧ r.transaction_type ≠ "credit" ∧ r.transaction_type ≠ "debit" := by
  refine ⟨_, rfl, ?_, ?_, ?_⟩
  · norm_num
  · decide
  · decide

/-- Claim C3 (amended): the extraction step either returns the record
exactly as parsed from the model response or fails with `None` (never
raising); `amount ≥ 0` and `transaction_type ∈ {credit, debit}` are not
checked by the validator, so they hold of every returned record exactly
when every schema-valid model response satisfies them. -/
theorem parse_email_constraints_relative
    (oracle : String → String → Option TransactionData)
    (now email_text : String) (current_timestamp : Option String)
    (h : ∀ t s r, oracle t s = some r →
      0 ≤ r.amount ∧ (r.transaction_type = "credit" ∨ r.transaction_type = "debit")) :
    ∀ r, parse_email oracle now email_text current_timestamp = some r →
      0 ≤ r.amount ∧ (r.transaction_type = "credit" ∨ r.transaction_type = "debit") := by
  intro r hr
  exact h email_text _ r hr

/-- Witness for `parse_email_constraints_relative` at a concrete
constraint-respecting oracle. -/
theorem parse_email_constraints_relative_witness :
    0 ≤ ({ amount := 30, transaction_type := "debit", date := "2025-10-30", timestamp := "2025-10-30 12:00:00" : TransactionData }).amount ∧
      (({ amount := 30, transaction_type := "debit", date := "2025-10-30", timestamp := "2025-10-30 12:00:00" : TransactionData }).transaction_type = "credit" ∨
       ({ amount := 30, transaction_type := "debit", date := "2025-10-30", timestamp := "2025-10-30 12:00:00" : TransactionData }).transaction_type = "debit") :=
  parse_email_constraints_relative
    (fun _ _ => some { amount := 30, transaction_type := "debit", date := "2025-10-30", timestamp := "2025-10-30 12:00:00" })
    "2025-10-30 12:00:00" "alert" none
    (by
      intro t s r hr
      cases hr
      exact ⟨by norm_num, Or.inr rfl⟩)
    _ rfl

/-- Claim C7: a parse failure on one message never aborts batch
extraction — `parse_email` returns `None` instead of raising, and
`parse_email_batch` skips exactly the failed messages, returning the
successfully parsed records in input order, each with its source email
id, subject and date attached. -/
theorem parse_email_batch_skips_failures
    (oracle : String → String → Option TransactionData)
    (now : String) (use_snippet : Bool) (emails : List Email) :
    parse_email_batch oracle now use_snippet emails =
      emails.filterMap (fun e =>
        (parse_email oracle now (if use_snippet then e.snippet else e.body) none).map
          (fun d => ⟨d, e.id, e.subject, e.date⟩)) := by
  induction emails with
  | nil => rfl
  | cons e rest ih =>
    cases hp : parse_email oracle now (if use_snippet then e.snippet else e.body) none with
    | some d => simp [parse_email_batch, hp, List.filterMap_cons, ih]
    | none => simp [parse_email_batch, hp, List.filterMap_cons, ih]

/-- Helper: the category-totals fold ignores every transaction whose
`transaction_type` is not `debit`, so folding over the debit-filtered
list gives the same totals, from any starting accumulator. -/
theorem foldl_totals_filter (ts : List DbTxn) (acc : List (String × ℚ)) :
    ts.foldl
      (fun acc t =>
        if t.transaction_type = "debit" then
          addToTotals acc (t.category.getD "Others") t.amount
        else acc)
      acc =
    (ts.filter (fun t => t.transaction_type == "debit")).foldl
      (fun acc t =>
        if t.transaction_type = "debit" then
          addToTotals acc (t.category.getD "Others") t.amount
        else acc)
      acc := by
  induction ts generalizing acc with
  | nil => rfl
  | cons t rest ih =>
    by_cases h : t.transaction_type = "debit"
    · simp [List.filter_cons, h, ih]
    · simp [List.filter_cons, h, ih]

/-- Claim C9: the category breakdown embedded in the daily-insight prompt
is built from debit transactions only — credits contribute nothing to the
category totals — and is sorted in descending order of total amount per
category.  (`generate_daily_insight` embeds exactly
`sortedCategoryTotals` into its prompt via `categoryBreakdownText`.) -/
theorem daily_breakdown_debit_only_sorted (ts : List DbTxn) :
    categoryTotals ts = categoryTotals (ts.filter (fun t => t.transaction_type == "debit")) ∧
    List.Sorted (fun (a b : String × ℚ) => b.2 ≤ a.2) (sortedCategoryTotals ts) := by
  constructor
  · unfold categoryTotals
    exact foldl_totals_filter ts []
  · unfold sortedCategoryTotals
    haveI h1 : IsTotal (String × ℚ) (fun a b => b.2 ≤ a.2) := ⟨fun a b => le_total b.2 a.2⟩
    haveI h2 : IsTrans (String × ℚ) (fun a b => b.2 ≤ a.2) := ⟨fun a b c hab hbc => le_trans hbc hab⟩
    exact List.sorted_insertionSort _ _

/-- The first immediate (top-level only) `text/plain` part carrying body
data, and that data; the declarative counterpart of the `scanParts`
loop. -/
def firstTopLevelPlain (ps : List MessagePart) : Option String :=
  (ps.find? (fun p => p.mimeType == "text/plain" && p.bodyData.isSome)).bind
    (fun p => p.bodyData)

/-- Helper: the part-scanning loop returns the decoded data of the first
top-level `text/plain` part that has data, and the empty string when
there is none. -/
theorem scanParts_eq_firstTopLevelPlain (decode : String → String)
    (ps : List MessagePart) :
    scanParts decode ps = (firstTopLevelPlain ps).elim "" decode := by
  induction ps with
  | nil => rfl
  | cons p rest ih =>
    by_cases hm : p.mimeType = "text/plain"
    · cases hb : p.bodyData with
      | some d => simp [scanParts, firstTopLevelPlain, hm, hb]
      | none =>
        simp only [scanParts, firstTopLevelPlain, hm, hb] at ih ⊢
        simpa [List.find?_cons, hm, hb] using ih
    · simp only [scanParts, firstTopLevelPlain] at ih ⊢
      simpa [List.find?_cons, hm] using ih

/-- Claim C5 (amended): body extraction decodes the payload's own
non-empty body data when present, regardless of mime type; otherwise it
scans only the immediate top-level parts and decodes the first
`text/plain` part carrying body data; it does not recurse into nested
multiparts.  If neither exists the result is the empty string, not an
error. -/
theorem get_message_body_top_level_only (decode : String → String)
    (payload : MessagePart) :
    get_message_body decode payload =
      (match payload.bodyData with
       | some d =>
           if d = "" then (firstTopLevelPlain payload.parts).elim "" decode
           else decode d
       | none => (firstTopLevelPlain payload.parts).elim "" decode) := by
  unfold get_message_body
  cases hb : payload.bodyData with
  | some d =>
    by_cases hd : d = "" <;> simp [hd, scanParts_eq_firstTopLevelPlain]
  | none => simp [scanParts_eq_firstTopLevelPlain]

/-- A message whose only `text/plain` part sits inside a nested
`multipart/alternative` container part. -/
def nestedPayload : MessagePart :=
  .mk "multipart/mixed" none
    [.mk "multipart/alternative" none
      [.mk "text/plain" (some "SGVsbG8gd29ybGQ=") []]]

/-- Counterexample to claim C5: on a nested payload whose only
`text/plain` part lies one level down, `_get_message_body` returns the
empty string although a plain-text part with body data exists — the
claimed nested search (`specFirstPlainText`) finds it, so its decode (a
non-empty string under the identity transport decode) differs from the
actual result. -/
theorem get_message_body_nested_cex :
    get_message_body (fun s => s) nestedPayload = "" ∧
    specFirstPlainText nestedPayload = some "SGVsbG8gd29ybGQ=" ∧
    (some "SGVsbG8gd29ybGQ=").elim "" (fun s => s) ≠ "" := by
  refine ⟨rfl, ?_, by decide⟩
  rfl

/-- Claim C4: the daily insight generator always returns a string; when
the LLM call fails it returns the deterministic templated sentence built
only from the numeric summary fields, which is non-empty and contains the
rendered numeric total spent; the analogous monthly fallback likewise
returns a string containing the total spent.  Neither fallback path can
itself fail — it is a total function of the summary fields. -/
theorem insight_llm_failure_fallback (llm : String → Option String)
    (today : String) (s : DailySummaryDict) (txs : Option (List DbTxn))
    (todayMonth todayYear : Nat) (ms : MonthlySummaryDict)
    (cb : Option (List (String × ℚ))) :
    (llm (dailyPrompt today s txs) = none →
      generate_daily_insight llm today s txs = dailyFallback s ∧
      generate_daily_insight llm today s txs ≠ "" ∧
      ∃ pre post, generate_daily_insight llm today s txs =
        pre ++ fmtQ (s.total_spent.getD 0) ++ post) ∧
    (llm (monthlyPrompt todayMonth todayYear ms cb) = none →
      generate_monthly_insight llm todayMonth todayYear ms cb = monthlyFallback ms ∧
      generate_monthly_insight llm todayMonth todayYear ms cb ≠ "" ∧
      ∃ pre post, generate_monthly_insight llm todayMonth todayYear ms cb =
        pre ++ fmtQ (ms.total_spent.getD 0) ++ post) := by
  constructor
  · intro hf
    refine ⟨by simp [generate_daily_insight, hf], ?_, ?_⟩
    · intro h
      simp only [generate_daily_insight, hf, dailyFallback] at h
      have := congrArg String.length h
      simp [String.length_append] at this
      exact absurd this.1.1.1.1 (by decide)
    · exact ⟨"Today you spent ₹",
        " across " ++ toString (s.transaction_count.getD 0) ++ " transactions.",
        by simp [generate_daily_insight, hf, dailyFallback, String.append_assoc]⟩
  · intro hf
    refine ⟨by simp [generate_monthly_insight, hf], ?_, ?_⟩
    · intro h
      simp only [generate_monthly_insight, hf, monthlyFallback] at h
      have := congrArg String.length h
      simp [String.length_append] at this
      exact absurd this.1.1 (by decide)
    · exact ⟨"This month you spent ₹", ".",
        by simp [generate_monthly_insight, hf, monthlyFallback, String.append_assoc]⟩

/-- Witness for `insight_llm_failure_fallback`: an always-failing LLM at
a concrete daily and monthly summary. -/
theorem insight_llm_failure_fallback_witness :
    (generate_daily_insight (fun _ => none) "2025-10-30"
        { total_spent := some 500, transaction_count := some 3 } none =
      dailyFallback { total_spent := some 500, transaction_count := some 3 } ∧
     generate_daily_insight (fun _ => none) "2025-10-30"
        { total_spent := some 500, transaction_count := some 3 } none ≠ "" ∧
     ∃ pre post, generate_daily_insight (fun _ => none) "2025-10-30"
        { total_spent := some 500, transaction_count := some 3 } none =
       pre ++ fmtQ (({ total_spent := some 500, transaction_count := some 3 : DailySummaryDict }).total_spent.getD 0) ++ post) ∧
    (generate_monthly_insight (fun _ => none) 10 2025 { total_spent := some 9000 } none =
      monthlyFallback { total_spent := some 9000 } ∧
     generate_monthly_insight (fun _ => none) 10 2025 { total_spent := some 9000 } none ≠ "" ∧
     ∃ pre post, generate_monthly_insight (fun _ => none) 10 2025 { total_spent := some 9000 } none =
       pre ++ fmtQ (({ total_spent := some 9000 : MonthlySummaryDict }).total_spent.getD 0) ++ post) :=
  ⟨(insight_llm_failure_fallback (fun _ => none) "2025-10-30"
      { total_spent := some 500, transaction_count := some 3 } none 10 2025
      { total_spent := some 9000 } none).1 rfl,
   (insight_llm_failure_fallback (fun _ => none) "2025-10-30"
      { total_spent := some 500, transaction_count := some 3 } none 10 2025
      { total_spent := some 9000 } none).2 rfl⟩

/-- Helper: every calendar month has a positive number of days. -/
theorem daysInMonth_pos (year month : Nat) : 0 < daysInMonth year month := by
  unfold daysInMonth
  split
  · split <;> omega
  · split <;> omega

/-- Claim C8: for every year and valid month, the monthly summary's
`average_daily_spend` equals `total_spent` (the month's total debit)
divided by the number of calendar days of that month, whatever the store
contains — in particular regardless of how many days actually carry
transactions. -/
theorem monthly_average_daily_spend (store : List DbTxn) (year month : Nat)
    (h : 1 ≤ month ∧ month ≤ 12) :
    ∃ s, get_monthly_summary store year month = some s ∧
      s.average_daily_spend = s.total_spent / (daysInMonth year month : ℚ) := by
  have hd0 : daysInMonth year month ≠ 0 :=
    Nat.pos_iff_ne_zero.mp (daysInMonth_pos year month)
  unfold get_monthly_summary
  rw [if_pos h]
  refine ⟨_, rfl, ?_⟩
  simp [hd0]

/-- Witness for `monthly_average_daily_spend`: February 2024 (29 days)
over a store with a single debit on one day. -/
theorem monthly_average_daily_spend_witness :
    (1 ≤ 2 ∧ 2 ≤ 12) ∧
    ∃ s, get_monthly_summary [{ amount := 250, transaction_type := "debit", transaction_date := "2024-02-05", email_id := "e1" }] 2024 2 = some s ∧
      s.average_daily_spend = s.total_spent / (daysInMonth 2024 2 : ℚ) :=
  ⟨⟨by decide, by decide⟩,
   monthly_average_daily_spend
     [{ amount := 250, transaction_type := "debit", transaction_date := "2024-02-05", email_id := "e1" }]
     2024 2 ⟨by decide, by decide⟩⟩

/-- Helper: the number of messages of a batch whose extraction succeeds. -/
def succCount (ex : String → Option TransactionData) (msgs : List Email) : Nat :=
  (msgs.filter (fun e => (ex e.snippet).isSome)).length

/-- Helper: the number of messages of a batch whose extraction fails. -/
def failCount (ex : String → Option TransactionData) (msgs : List Email) : Nat :=
  (msgs.filter (fun e => (ex e.snippet).isNone)).length

/-- Helper: running the process loop only appends to the store — every
record stored before the run is still stored after it. -/
theorem process_store_mono (ex : String → Option TransactionData)
    (classify : TransactionData → Option CategoryData)
    (msgs : List Email) (store : List DbTxn) (r : DbTxn) (hr : r ∈ store) :
    r ∈ (process ex classify store msgs).1 := by
  induction msgs generalizing store with
  | nil => exact hr
  | cons e rest ih =>
    unfold process
    cases hx : ex e.snippet with
    | none => exact ih store hr
    | some td =>
      cases hq : get_transaction_by_email_id store e.id with
      | some r0 => exact ih store hr
      | none => exact ih (store ++ [mkRecord classify td e]) (List.mem_append_left _ hr)

/-- Helper: after a run of the process loop, every message of the batch
whose extraction succeeds has a record with its message id in the final
store — either it was already there (dedup hit) or the run committed
it. -/
theorem process_covers (ex : String → Option TransactionData)
    (classify : TransactionData → Option CategoryData)
    (msgs : List Email) (store : List DbTxn) (e : Email) (he : e ∈ msgs)
    (hx : (ex e.snippet).isSome) :
    ∃ r ∈ (process ex classify store msgs).1, r.email_id = e.id := by
  induction msgs generalizing store with
  | nil => cases he
  | cons m rest ih =>
    rcases List.mem_cons.mp he with hem | hem
    · subst hem
      obtain ⟨td, htd⟩ := Option.isSome_iff_exists.mp hx
      unfold process
      rw [htd]
      cases hq : get_transaction_by_email_id store e.id with
      | some r0 =>
        have hq' : store.find? (fun r => r.email_id == e.id) = some r0 := hq
        have hmem := List.mem_of_find?_eq_some hq'
        have hid : r0.email_id = e.id := by simpa using List.find?_some hq'
        exact ⟨r0, process_store_mono ex classify rest store r0 hmem, hid⟩
      | none =>
        have hmem : mkRecord classify td e ∈ store ++ [mkRecord classify td e] :=
          List.mem_append_right _ (by simp)
        exact ⟨mkRecord classify td e,
          process_store_mono ex classify rest (store ++ [mkRecord classify td e]) _ hmem, rfl⟩
    · unfold process
      cases hx2 : ex m.snippet with
      | none => exact ih store hem
      | some td =>
        cases hq : get_transaction_by_email_id store m.id with
        | some r0 => exact ih store hem
        | none => exact ih (store ++ [mkRecord classify td m]) hem

/-- Helper: when every successfully-extracting message of the batch
already has a record with its id in the store, a process run changes
nothing: no inserts, one skip per successful extraction, one failure per
failed extraction. -/
theorem process_stable (ex : String → Option TransactionData)
    (classify : TransactionData → Option CategoryData)
    (msgs : List Email) (store : List DbTxn)
    (hcov : ∀ e ∈ msgs, (ex e.snippet).isSome → ∃ r ∈ store, r.email_id = e.id) :
    process ex classify store msgs =
      (store, ⟨0, succCount ex msgs, failCount ex msgs⟩) := by
  induction msgs with
  | nil => simp [process, succCount, failCount]
  | cons m rest ih =>
    have hrest : ∀ e ∈ rest, (ex e.snippet).isSome → ∃ r ∈ store, r.email_id = e.id :=
      fun e he hx => hcov e (List.mem_cons_of_mem _ he) hx
    unfold process
    cases hx : ex m.snippet with
    | none =>
      simp [ih hrest, succCount, failCount, List.filter_cons, hx]
    | some td =>
      have hex : ∃ r ∈ store, r.email_id = m.id :=
        hcov m (List.mem_cons_self m rest) (by simp [hx])
      cases hq : get_transaction_by_email_id store m.id with
      | none =>
        exfalso
        obtain ⟨r, hr, hid⟩ := hex
        have hq' : store.find? (fun r => r.email_id == m.id) = none := hq
        have := List.find?_eq_none.mp hq' r hr
        simp [hid] at this
      | some r0 =>
        simp [ih hrest, succCount, failCount, List.filter_cons, hx]

/-- Helper: over any starting store, a process run accounts every message
exactly once — inserted and skipped together count the successful
extractions, failed counts the failed ones. -/
theorem process_counts (ex : String → Option TransactionData)
    (classify : TransactionData → Option CategoryData)
    (msgs : List Email) (store : List DbTxn) :
    (process ex classify store msgs).2.inserted + (process ex classify store msgs).2.skipped =
      succCount ex msgs ∧
    (process ex classify store msgs).2.failed = failCount ex msgs := by
  induction msgs generalizing store with
  | nil => simp [process, succCount, failCount]
  | cons m rest ih =>
    unfold process
    cases hx : ex m.snippet with
    | none =>
      have h := ih store
      simp only [succCount, failCount] at h ⊢
      simp [List.filter_cons, hx]
      omega
    | some td =>
      cases hq : get_transaction_by_email_id store m.id with
      | some r0 =>
        have h := ih store
        simp only [succCount, failCount] at h ⊢
        simp [List.filter_cons, hx]
        omega
      | none =>
        have h := ih (store ++ [mkRecord classify td m])
        simp only [succCount, failCount] at h ⊢
        simp [List.filter_cons, hx]
        omega

/-- Claim C2: processing a batch of messages is idempotent in the number
of distinct committed records — running the process pipeline a second
time over the identical message set inserts 0 new records and leaves the
store unchanged: every message whose `sourceMessageId` (`email_id`)
already has a stored transaction is counted as skipped, so the second
run's skipped count equals the first run's inserted plus skipped counts,
and its failed count is unchanged. -/
theorem process_idempotent_second_run (ex : String → Option TransactionData)
    (classify : TransactionData → Option CategoryData)
    (store0 : List DbTxn) (msgs : List Email) :
    (process ex classify (process ex classify store0 msgs).1 msgs).2.inserted = 0 ∧
    (process ex classify (process ex classify store0 msgs).1 msgs).1 =
      (process ex classify store0 msgs).1 ∧
    (process ex classify (process ex classify store0 msgs).1 msgs).2.skipped =
      (process ex classify store0 msgs).2.inserted +
        (process ex classify store0 msgs).2.skipped ∧
    (process ex classify (process ex classify store0 msgs).1 msgs).2.failed =
      (process ex classify store0 msgs).2.failed := by
  have hcov : ∀ e ∈ msgs, (ex e.snippet).isSome →
      ∃ r ∈ (process ex classify store0 msgs).1, r.email_id = e.id :=
    fun e he hx => process_covers ex classify msgs store0 e he hx
  have hstable := process_stable ex classify msgs (process ex classify store0 msgs).1 hcov
  have hcounts := process_counts ex classify msgs store0
  rw [hstable]
  exact ⟨rfl, rfl, hcounts.1.symm, hcounts.2.symm⟩
